import Mathlib

/-!
# Device key provisioning demo: signing bridge, RNG adapter and coordinator

A shallow embedding of `demos/dev_mode_key_provisioning/src/aws_key_provisioning_demo.c`.

* Bytes are natural numbers; an `unsigned char` increment is taken modulo 256.
* A C pointer to bytes is a `Mem`: the memory starting at the pointer, as a map from
  the index to the byte stored there.  A write through the pointer goes to the index it
  names; the C code checks no capacity and neither does the model.
* Calls into the PKCS #11 token, mbedTLS and the provisioning helpers are external:
  their replies are inputs of the model, and the calls made and the console lines
  printed are recorded as a list of events.
-/

namespace KeyProvisioning

/-! ## Memory -/

/-- The memory a byte pointer points at: index to byte. -/
abbrev Mem := Nat → Nat

/-- The assignment `p[ i ] = v`. -/
def Mem.set (m : Mem) (i v : Nat) : Mem :=
  fun j => if j = i then v else m j

/-- The call `memcpy( &dst[ d ], &src[ s ], n )` for regions that do not overlap. -/
def memcpy (dst : Mem) (d : Nat) (src : Mem) (s n : Nat) : Mem :=
  fun j => if d ≤ j ∧ j < d + n then src (s + (j - d)) else dst j

/-- The `n` bytes stored at `m[ off ]`, ..., `m[ off + n - 1 ]`. -/
def readBytes (m : Mem) (off n : Nat) : List Nat :=
  (List.range n).map (fun i => m (off + i))

/-- The memory after the bytes `bs` are stored at `m[ off ]` onwards. -/
def writeBytes (m : Mem) (off : Nat) (bs : List Nat) : Mem :=
  fun j => if off ≤ j ∧ j < off + bs.length then bs.getD (j - off) 0 else m j

/-! ## The signature reformatting step of `prvPrivateKeySigningCallback` -/

/-- The local `uint8_t ucTemp[ 64 ] = { 0 }` after `memcpy( ucTemp, pucSig, *pxSigLen )`
(source line 198).  Only indices below 64 belong to the array: for `*pxSigLen` above 64
the copy runs past its end, which the callback records as an overrun. -/
def ucTempAfterCopy (pucSig : Mem) (xSigLen : Nat) : Mem :=
  memcpy (fun _ => 0) 0 pucSig 0 xSigLen

/-- Source lines 198 to 238 of `prvPrivateKeySigningCallback`: the raw signature in
`pucSig` is copied to `ucTemp` and rewritten in place as an ASN.1 sequence of two
integers.  The result is the buffer and the value stored to `*pxSigLen`. -/
def reformatSignature (pucSig : Mem) (xSigLen : Nat) : Mem × Nat :=
  let ucTemp := ucTempAfterCopy pucSig xSigLen
  let pucSig := pucSig.set 0 0x30
  let pucSig := pucSig.set 1 0x44
  let pucSig := pucSig.set 2 0x02
  let first : Mem × Nat :=
    if ucTemp 0 &&& 0x80 ≠ 0 then
      let pucSig := pucSig.set 1 ((pucSig 1 + 1) % 256)
      let pucSig := pucSig.set 3 0x21
      let pucSig := pucSig.set 4 0x0
      let pucSig := memcpy pucSig 5 ucTemp 0 32
      (pucSig, 33 + 4)
    else
      let pucSig := pucSig.set 3 0x20
      let pucSig := memcpy pucSig 4 ucTemp 0 32
      (pucSig, 32 + 4)
  let pucSig := first.1
  let pucSigPtr := first.2
  let pucSig := pucSig.set pucSigPtr 0x02
  let pucSigPtr := pucSigPtr + 1
  let pucSig :=
    if ucTemp 32 &&& 0x80 ≠ 0 then
      let pucSig := pucSig.set 1 ((pucSig 1 + 1) % 256)
      let pucSig := pucSig.set pucSigPtr 0x21
      let pucSig := pucSig.set (pucSigPtr + 1) 0x00
      let pucSigPtr := pucSigPtr + 2
      memcpy pucSig pucSigPtr ucTemp 32 32
    else
      let pucSig := pucSig.set pucSigPtr 0x20
      let pucSigPtr := pucSigPtr + 1
      memcpy pucSig pucSigPtr ucTemp 32 32
  (pucSig, pucSig 1 + 2)

/-- The half has the high bit of its first byte set (`ucTemp[ 0 ] & 0x80`). -/
def highBit (b : Nat) : Bool := b &&& 0x80 != 0

/-- The length byte of the INTEGER that holds a 32-byte half whose first byte is `b`. -/
def intLen (b : Nat) : Nat := if highBit b then 0x21 else 0x20

/-- The content of the INTEGER that holds the 32-byte `half`. -/
def intContent (half : List Nat) : List Nat :=
  if highBit (half.headD 0) then 0x00 :: half else half

/-- The number of halves among `r`, `s` that receive the `0x00` prefix. -/
def prefixCount (r s : List Nat) : Nat :=
  (if highBit (r.headD 0) then 1 else 0) + (if highBit (s.headD 0) then 1 else 0)

/-! ## Constants, globals and events -/

/-- The values of the constants and type sizes the file takes from headers of the
PKCS #11, TLS and mbedTLS libraries and from the configuration headers. -/
structure Constants where
  CKR_OK : Nat
  CKR_ARGUMENTS_BAD : Nat
  CK_INVALID_HANDLE : Nat
  CKM_ECDSA : Nat
  CKO_PRIVATE_KEY : Nat
  CKO_PUBLIC_KEY : Nat
  CKK_EC : Nat
  TLS_ERROR_RNG : Int
  TLS_ERROR_SIGN : Int
  /-- The value of `sizeof( CK_OBJECT_CLASS )`. -/
  sizeofObjectClass : Nat
  /-- The value of `sizeof( CK_KEY_TYPE )`. -/
  sizeofKeyType : Nat
  /-- The value of `sizeof( mbedtls_pk_info_t )`. -/
  sizeofPkInfo : Nat
  /-- The value of `sizeof( keyJITR_DEVICE_CERTIFICATE_AUTHORITY_PEM )`. -/
  sizeofJitrCaPem : Nat
  /-- The macro `DEMO_PART`. -/
  DEMO_PART : Nat

/-- The global variables of the file. -/
structure Globals where
  xGlobalSession : Nat
  xResult : Nat
  xPrivateKeyHandle : Nat
  xPublicKeyHandle : Nat

/-- The label argument of `xProvisionCertificate`. -/
inductive CertLabel where
  | pkcs11configLABEL_DEVICE_CERTIFICATE_FOR_TLS
  | pkcs11configLABEL_JITP_CERTIFICATE
  deriving DecidableEq

/-- The attribute type in the template of `C_GetAttributeValue`. -/
inductive AttrType where
  | CKA_CLASS
  | CKA_KEY_TYPE
  | CKA_EC_POINT
  deriving DecidableEq

/-- The external functions the file calls, with the scalar arguments that tell the
calls apart. -/
inductive ExtFn where
  | xInitializePkcs11Session
  | C_GetFunctionList
  | C_GenerateRandom (hSession pRandomData ulRandomLen : Nat)
  | C_SignInit (hSession mechanism hKey : Nat)
  | C_Sign (hSession : Nat) (data : List Nat)
  | xProvisionCertificate (hSession : Nat) (label : CertLabel)
  | xDestroyCredentials (hSession : Nat)
  | xProvisionGenerateKeyPairEC (hSession : Nat)
  | C_GetAttributeValue (hSession hObject : Nat) (type : AttrType)
  | mbedtls_ecdsa_init
  | mbedtls_ecp_group_init
  | mbedtls_ecp_group_load
  | mbedtls_ecp_point_read_binary
  | mbedtls_pk_info_from_type
  | pvPortMalloc (size : Nat)
  | mbedtls_pk_init
  | mbedtls_pk_setup
  | mbedtls_x509write_csr_init
  | mbedtls_x509write_csr_set_subject_name
  | mbedtls_x509write_csr_set_key
  | mbedtls_x509write_csr_set_md_alg
  | mbedtls_x509write_csr_set_key_usage
  | mbedtls_x509write_csr_set_ns_cert_type
  | mbedtls_x509write_csr_pem
  | mbedtls_ecp_group_free
  | mbedtls_ecdsa_free
  | mbedtls_x509write_csr_free
  | vPortFree
  deriving DecidableEq

/-- What the program does that is visible outside: a call of an external function, or
a `configPRINTF` of a format string (the values of its arguments are not recorded). -/
inductive Event where
  | call (fn : ExtFn)
  | print (fmt : String)
  deriving DecidableEq

/-- The events of `if( c ) { configPRINTF( ( fmt ) ); }`. -/
def printIf (c : Bool) (fmt : String) : List Event :=
  if c then [Event.print fmt] else []

/-- The macro `configASSERT( cond )`.  Its definition is in the configuration header:
`assertHalts` says whether a failed assertion stops the task for good (`none`) or the
macro is empty or returns. -/
def configASSERT (assertHalts : Bool) (cond : Bool) : Option Unit :=
  if assertHalts && !cond then none else some ()

/-! ## `prvRNG` -/

/-- The token as `prvRNG` sees it. -/
structure RngToken where
  C_GetFunctionList : Nat
  /-- The value `C_GenerateRandom( hSession, pRandomData, ulRandomLen )` returns. -/
  C_GenerateRandom : Nat → Nat → Nat → Nat

/-- The value `prvRNG` returns and the events of the call. -/
structure RngOutcome where
  xResult : Int
  trace : List Event

/-- The function `prvRNG`.  `pkcs_session` is the session handle the first argument
points at, `pucRandom` the value of the buffer pointer.  `xResult` is a `BaseType_t`;
the conversion of the `CK_RV` of the token to it is taken to keep the value. -/
def prvRNG (k : Constants) (tok : RngToken) (pkcs_session pucRandom xRandomLength : Nat) :
    RngOutcome :=
  -- the value of `C_GetFunctionList` is assigned to `xResult` and overwritten at once
  let trace := [Event.call ExtFn.C_GetFunctionList]
  let xResult : Int := tok.C_GenerateRandom pkcs_session pucRandom xRandomLength
  let trace := trace ++ [Event.call (ExtFn.C_GenerateRandom pkcs_session pucRandom xRandomLength)]
  if xResult ≠ 0 then
    { xResult := k.TLS_ERROR_RNG
      trace := trace ++ [Event.print "ERROR: Failed to generate random bytes %d \r\n"] }
  else
    { xResult := xResult, trace := trace }

/-! ## `prvPrivateKeySigningCallback` -/

/-- What a call of `C_Sign` does: the value returned, the bytes stored at `pSignature`
onwards and the value stored to `*pulSignatureLen`. -/
structure SignReply where
  rv : Nat
  signature : List Nat
  ulSignatureLen : Nat

/-- The token as the signing callback sees it. -/
structure SignToken where
  /-- The value `C_SignInit( hSession, pMechanism, hKey )` returns. -/
  C_SignInit : Nat → Nat → Nat → Nat
  /-- The call `C_Sign( hSession, pData, ulDataLen, pSignature, pulSignatureLen )`, from
  the session, the data and the value of `*pulSignatureLen` on entry. -/
  C_Sign : Nat → List Nat → Nat → SignReply

/-- The state of `prvPrivateKeySigningCallback` at source line 192, before the
assertion on the signature length. -/
structure SignStage where
  xResult : Nat
  pucSig : Mem
  xSigLen : Nat
  xToBeSigned : Mem
  trace : List Event

/-- Source lines 152 to 191 of `prvPrivateKeySigningCallback`.  `xToBeSigned` is the
memory at the local array of 256 bytes, `xSigLen` the value of `*pxSigLen`.  Only
indices below 256 belong to the array: for `xHashLen` above 256 the copy at line 172
runs past its end, which the callback records as an overrun. -/
def signWithToken (k : Constants) (g : Globals) (tok : SignToken)
    (pucHash : Mem) (xHashLen : Nat) (pucSig : Mem) (xSigLen : Nat) : SignStage :=
  let xResult : Nat := if xHashLen > 256 then k.CKR_ARGUMENTS_BAD else 0
  let xToBeSigned := memcpy (fun _ => 0) 0 pucHash 0 xHashLen
  let xToBeSignedLen := xHashLen
  let s1 : SignStage :=
    if 0 = xResult then
      { xResult := tok.C_SignInit g.xGlobalSession k.CKM_ECDSA g.xPrivateKeyHandle
        pucSig := pucSig
        xSigLen := xSigLen
        xToBeSigned := xToBeSigned
        trace := [Event.call (ExtFn.C_SignInit g.xGlobalSession k.CKM_ECDSA g.xPrivateKeyHandle)] }
    else
      { xResult := xResult, pucSig := pucSig, xSigLen := xSigLen, xToBeSigned := xToBeSigned,
        trace := [] }
  if 0 = s1.xResult then
    let data := readBytes xToBeSigned 0 xToBeSignedLen
    let reply := tok.C_Sign g.xGlobalSession data 256
    { xResult := reply.rv
      pucSig := writeBytes s1.pucSig 0 reply.signature
      xSigLen := reply.ulSignatureLen
      xToBeSigned := xToBeSigned
      trace := s1.trace ++ [Event.call (ExtFn.C_Sign g.xGlobalSession data)] }
  else s1

/-- What a call of `prvPrivateKeySigningCallback` that returns leaves behind. -/
structure SigningOutcome where
  lFinalResult : Int
  pucSig : Mem
  xSigLen : Nat
  xToBeSigned : Mem
  trace : List Event
  /-- A copy went past the end of a local array: `memcpy( xToBeSigned, pucHash, xHashLen )`
  with `xHashLen` above 256 (line 172) or `memcpy( ucTemp, pucSig, *pxSigLen )` with
  `*pxSigLen` above 64 (line 198).  C defines nothing for such a run; the other fields
  then only follow the text of the source. -/
  overrun : Bool

/-- The function `prvPrivateKeySigningCallback`; `none` when the assertion at source
line 197 stops the task. -/
def prvPrivateKeySigningCallback (k : Constants) (assertHalts : Bool) (g : Globals)
    (tok : SignToken) (pucHash : Mem) (xHashLen : Nat) (pucSig : Mem) (xSigLen : Nat) :
    Option SigningOutcome :=
  let s := signWithToken k g tok pucHash xHashLen pucSig xSigLen
  match configASSERT assertHalts (s.xSigLen == 64) with
  | none => none
  | some () =>
    let f := reformatSignature s.pucSig s.xSigLen
    if s.xResult ≠ 0 then
      some { lFinalResult := k.TLS_ERROR_SIGN
             pucSig := f.1
             xSigLen := f.2
             xToBeSigned := s.xToBeSigned
             trace := s.trace ++ [Event.print "ERROR: Failure in signing callback: %d \r\n"]
             overrun := decide (256 < xHashLen) || decide (64 < s.xSigLen) }
    else
      some { lFinalResult := 0
             pucSig := f.1
             xSigLen := f.2
             xToBeSigned := s.xToBeSigned
             trace := s.trace
             overrun := decide (256 < xHashLen) || decide (64 < s.xSigLen) }

/-! ## `vProvisionDevice` and `vDevModeDeviceKeyProvisioning` -/

/-- What a call of `C_GetAttributeValue` does: the value returned, `xTemplate.ulValueLen`
after the call, and the value of the variable `pValue` points at after the call. -/
structure AttrReply where
  rv : Nat
  ulValueLen : Nat
  value : Nat

/-- The replies of the external functions `vDevModeDeviceKeyProvisioning` calls, one
field for each call in the source. -/
structure ProvisionEnv where
  /-- The value returned and the session handle stored to `xGlobalSession`. -/
  xInitializePkcs11Session : Nat × Nat
  C_GetFunctionList : Nat
  /-- The pointer in `pxGlobalFunctionList` after the call of `C_GetFunctionList`, 0 for
  `NULL` (the value the global starts with, kept when the call stores nothing). -/
  pxGlobalFunctionList : Nat
  /-- The value `xProvisionCertificate` returns for the device certificate and the
  value of `xObject` after the call. -/
  deviceCertificate : Nat × Nat
  /-- The same for the JITP certificate authority. -/
  jitpCertificate : Nat × Nat
  xDestroyCredentials : Nat
  /-- The value returned and the private and public key handles after the call. -/
  xProvisionGenerateKeyPairEC : Nat × Nat × Nat
  classLength : AttrReply
  privateClass : AttrReply
  publicClass : AttrReply
  privateKeyType : AttrReply
  publicKeyType : AttrReply
  ecPoint : AttrReply
  C_SignInit : Nat
  C_Sign : Nat
  mbedtls_ecp_group_load : Int
  mbedtls_ecp_point_read_binary : Int
  /-- The pointer `mbedtls_pk_info_from_type` returns, 0 for `NULL`. -/
  mbedtls_pk_info_from_type : Nat
  /-- The pointer the first `pvPortMalloc` returns, 0 for `NULL`. -/
  header_copy : Nat
  mbedtls_pk_setup : Int
  mbedtls_x509write_csr_set_subject_name : Int
  mbedtls_x509write_csr_set_key_usage : Int
  mbedtls_x509write_csr_set_ns_cert_type : Int
  /-- The pointer the second `pvPortMalloc` returns. -/
  final_csr : Nat
  mbedtls_x509write_csr_pem : Int

/-- The globals and events after a run; `completed` is false when the run stopped at
a call or a copy through a `NULL` pointer. -/
structure Outcome where
  globals : Globals
  trace : List Event
  completed : Bool

/-- The function `vProvisionDevice`. -/
def vProvisionDevice (k : Constants) (g : Globals) (env : ProvisionEnv) : Outcome :=
  let xResult := env.deviceCertificate.1
  let xObject := env.deviceCertificate.2
  let trace := [Event.call (ExtFn.xProvisionCertificate g.xGlobalSession
      CertLabel.pkcs11configLABEL_DEVICE_CERTIFICATE_FOR_TLS)]
    ++ printIf (xResult != k.CKR_OK || xObject == k.CK_INVALID_HANDLE)
        "ERROR: Failed to provision device certificate. %d \r\n"
  let s : Nat × List Event :=
    if xResult = k.CKR_OK then
      if k.sizeofJitrCaPem ≠ 0 then
        -- `xResult = xProvisionCertificate( ... ); xResult = CKR_OK;`: the value of the
        -- call, `env.jitpCertificate.1`, is overwritten by the next statement
        (k.CKR_OK, trace ++ [Event.call (ExtFn.xProvisionCertificate g.xGlobalSession
          CertLabel.pkcs11configLABEL_JITP_CERTIFICATE)])
      else (xResult, trace)
    else (xResult, trace)
  let xResult := s.1
  let trace := s.2
  let trace := trace ++
    (if xResult = k.CKR_OK then [Event.print "Device credential provisioning succeeded.\r\n"]
     else [Event.print "Device credential provisioning failed.\r\n"])
  { globals := { g with xResult := xResult }, trace := trace, completed := true }

/-- The start of the block of `vDevModeDeviceKeyProvisioning` compiled when `DEMO_PART`
is 0 (source lines 344 to 372): the old credentials are destroyed and the key pair is
generated.  The next statement calls `pxGlobalFunctionList->C_GetAttributeValue`
(line 379): the run stops there when the pointer is `NULL`. -/
def destroyAndGenerateKeyPair (k : Constants) (g : Globals) (env : ProvisionEnv) : Outcome :=
  let xResult := env.xDestroyCredentials
  let trace := [Event.call (ExtFn.xDestroyCredentials g.xGlobalSession)]
    ++ printIf (xResult != k.CKR_OK) "Failed to destroy credentials before Generating Key Pair.\r\n"
  let xResult := env.xProvisionGenerateKeyPairEC.1
  let xPrivateKeyHandle := env.xProvisionGenerateKeyPairEC.2.1
  let xPublicKeyHandle := env.xProvisionGenerateKeyPairEC.2.2
  let trace := trace ++ [Event.call (ExtFn.xProvisionGenerateKeyPairEC g.xGlobalSession)]
    ++ printIf (xResult != k.CKR_OK) "Generating EC key pair failed."
    ++ printIf (xPrivateKeyHandle == k.CK_INVALID_HANDLE)
        "Invalid private key handle generated by GenerateKeyPair.\r\n"
    ++ printIf (xPublicKeyHandle == k.CK_INVALID_HANDLE)
        "Invalid public key handle generated by GenerateKeyPair.\r\n"
  { globals := { xGlobalSession := g.xGlobalSession, xResult := xResult,
                 xPrivateKeyHandle := xPrivateKeyHandle, xPublicKeyHandle := xPublicKeyHandle }
    trace := trace
    completed := env.pxGlobalFunctionList != 0 }

/-- The checks of the generated key pair (source lines 374 to 512), up to the copy of
the key descriptor. -/
def generateKeyPairAndCheck (k : Constants) (g : Globals) (env : ProvisionEnv) : Outcome :=
  let xPrivateKeyHandle := g.xPrivateKeyHandle
  let xPublicKeyHandle := g.xPublicKeyHandle
  -- object class
  let xResult := env.classLength.rv
  let trace := [Event.call (ExtFn.C_GetAttributeValue g.xGlobalSession xPublicKeyHandle
      AttrType.CKA_CLASS)]
    ++ printIf (xResult != k.CKR_OK) "GetAttributeValue for length of public EC key class failed.\r\n"
    ++ printIf (env.classLength.ulValueLen != k.sizeofObjectClass)
        "Incorrect object class length returned from GetAttributeValue.\r\n"
  let xResult := env.privateClass.rv
  let xClass := env.privateClass.value
  let trace := trace
    ++ [Event.call (ExtFn.C_GetAttributeValue g.xGlobalSession xPrivateKeyHandle AttrType.CKA_CLASS)]
    ++ printIf (xResult != k.CKR_OK) "GetAttributeValue for private EC key class failed.\r\n"
    ++ printIf (xClass != k.CKO_PRIVATE_KEY) "Incorrect object class returned from GetAttributeValue.\r\n"
  let xResult := env.publicClass.rv
  let xClass := env.publicClass.value
  let trace := trace
    ++ [Event.call (ExtFn.C_GetAttributeValue g.xGlobalSession xPublicKeyHandle AttrType.CKA_CLASS)]
    ++ printIf (xResult != k.CKR_OK) "GetAttributeValue for public EC key class failed.\r\n"
    ++ printIf (xClass != k.CKO_PUBLIC_KEY) "Incorrect object class returned from GetAttributeValue.\r\n"
  -- key type
  let xResult := env.privateKeyType.rv
  let xKeyType := env.privateKeyType.value
  let trace := trace
    ++ [Event.call (ExtFn.C_GetAttributeValue g.xGlobalSession xPrivateKeyHandle AttrType.CKA_KEY_TYPE)]
    ++ printIf (xResult != k.CKR_OK) "Error getting attribute value of EC key type.\r\n"
    ++ printIf (env.privateKeyType.ulValueLen != k.sizeofKeyType)
        "Length of key type incorrect in GetAttributeValue.\r\n"
    ++ printIf (xKeyType != k.CKK_EC) "Incorrect key type for private key.\r\n"
  let xResult := env.publicKeyType.rv
  let xKeyType := env.publicKeyType.value
  let trace := trace
    ++ [Event.call (ExtFn.C_GetAttributeValue g.xGlobalSession xPublicKeyHandle AttrType.CKA_KEY_TYPE)]
    ++ printIf (xResult != k.CKR_OK) "Error getting attribute value of EC key type.\r\n"
    ++ printIf (env.publicKeyType.ulValueLen != k.sizeofKeyType)
        "Length of key type incorrect in GetAttributeValue.\r\n"
    ++ printIf (xKeyType != k.CKK_EC) "Incorrect key type for public key.\r\n"
  -- public point
  let xResult := env.ecPoint.rv
  let trace := trace
    ++ [Event.call (ExtFn.C_GetAttributeValue g.xGlobalSession xPublicKeyHandle AttrType.CKA_EC_POINT)]
    ++ printIf (xResult != k.CKR_OK) "Failed to retrieve EC Point.\r\n"
  -- a signature with the generated key
  let xResult := env.C_SignInit
  let trace := trace
    ++ [Event.call (ExtFn.C_SignInit g.xGlobalSession k.CKM_ECDSA xPrivateKeyHandle)]
    ++ printIf (xResult != k.CKR_OK) "Failed to SignInit ECDSA.\r\n"
  let xResult := env.C_Sign
  let trace := trace
    ++ [Event.call (ExtFn.C_Sign g.xGlobalSession (0xab :: List.replicate 31 0))]
    ++ printIf (xResult != k.CKR_OK) "Failed to ECDSA Sign.\r\n"
  -- the public key for mbedTLS
  let trace := trace ++ [Event.call ExtFn.mbedtls_ecdsa_init, Event.call ExtFn.mbedtls_ecp_group_init]
  let lMbedTLSResult := env.mbedtls_ecp_group_load
  let trace := trace ++ [Event.call ExtFn.mbedtls_ecp_group_load]
    ++ printIf (lMbedTLSResult != 0) "mbedTLS failed in setup for signature verification.\r\n"
  let lMbedTLSResult := env.mbedtls_ecp_point_read_binary
  let trace := trace ++ [Event.call ExtFn.mbedtls_ecp_point_read_binary]
    ++ printIf (lMbedTLSResult != 0) "mbedTLS failed in setup for signature verification.\r\n"
  -- the key descriptor with the signing callback
  let header := env.mbedtls_pk_info_from_type
  let header_copy := env.header_copy
  let trace := trace ++ [Event.call ExtFn.mbedtls_pk_info_from_type,
    Event.call (ExtFn.pvPortMalloc k.sizeofPkInfo)]
  { globals := { xGlobalSession := g.xGlobalSession, xResult := xResult,
                 xPrivateKeyHandle := xPrivateKeyHandle, xPublicKeyHandle := xPublicKeyHandle }
    trace := trace
    -- `memcpy( header_copy, header, sizeof( struct mbedtls_pk_info_t ) )`
    completed := header != 0 && header_copy != 0 }

/-- The rest of the block: the certificate signing request and the console output
(source lines 514 to 581). -/
def writeCsr (env : ProvisionEnv) : List Event :=
  let ret := env.mbedtls_pk_setup
  let trace := [Event.call ExtFn.mbedtls_pk_init, Event.call ExtFn.mbedtls_pk_setup]
    ++ printIf (ret != 0) "Failed to initialize PK context with given information.\r\n"
  let ret := env.mbedtls_x509write_csr_set_subject_name
  let trace := trace ++ [Event.call ExtFn.mbedtls_x509write_csr_init,
      Event.call ExtFn.mbedtls_x509write_csr_set_subject_name]
    ++ printIf (ret != 0) "Failed to set subject name of CSR context.\r\n"
  let ret := env.mbedtls_x509write_csr_set_key_usage
  let trace := trace ++ [Event.call ExtFn.mbedtls_x509write_csr_set_key,
      Event.call ExtFn.mbedtls_x509write_csr_set_md_alg,
      Event.call ExtFn.mbedtls_x509write_csr_set_key_usage]
    ++ printIf (ret != 0) "Failed to set key usage of CSR context.\r\n"
  let ret := env.mbedtls_x509write_csr_set_ns_cert_type
  let trace := trace ++ [Event.call ExtFn.mbedtls_x509write_csr_set_ns_cert_type]
    ++ printIf (ret != 0) "Failed to set NS Cert Type of CSR context.\r\n"
  let ret := env.mbedtls_x509write_csr_pem
  let trace := trace ++ [Event.call (ExtFn.pvPortMalloc 2000),
      Event.call ExtFn.mbedtls_x509write_csr_pem]
    ++ printIf (ret != 0) "Failed to write CSR.\r\n"
  trace ++ [Event.print "\n\n%s\n\n%s\n\n%s\n\n%s\r\n\n",
    Event.call ExtFn.mbedtls_ecp_group_free, Event.call ExtFn.mbedtls_ecdsa_free,
    Event.call ExtFn.mbedtls_x509write_csr_free, Event.call ExtFn.vPortFree]

/-- The function `vDevModeDeviceKeyProvisioning`. -/
def vDevModeDeviceKeyProvisioning (k : Constants) (g : Globals) (env : ProvisionEnv) : Outcome :=
  let xResult := env.xInitializePkcs11Session.1
  let g := { g with xGlobalSession := env.xInitializePkcs11Session.2, xResult := xResult }
  let trace := [Event.call ExtFn.xInitializePkcs11Session]
    ++ printIf (xResult != k.CKR_OK) "Failed to open PKCS #11 session.\r\n"
  let xResult := env.C_GetFunctionList
  let g := { g with xResult := xResult }
  let trace := trace ++ [Event.call ExtFn.C_GetFunctionList]
    ++ printIf (xResult != k.CKR_OK) "Failed to get function list.\r\n"
  if k.DEMO_PART = 0 then
    let o1 := destroyAndGenerateKeyPair k g env
    if o1.completed then
      let o := generateKeyPairAndCheck k o1.globals env
      if o.completed then
        { globals := o.globals, trace := trace ++ o1.trace ++ o.trace ++ writeCsr env,
          completed := true }
      else
        { globals := o.globals, trace := trace ++ o1.trace ++ o.trace, completed := false }
    else
      { globals := o1.globals, trace := trace ++ o1.trace, completed := false }
  else
    let o := vProvisionDevice k g env
    { globals := o.globals, trace := trace ++ o.trace, completed := o.completed }

/-! ## Reading a signature back: DER as the specification describes it -/

/-- The value of the bytes `bs` read as an unsigned big-endian number. -/
def beValue (bs : List Nat) : Nat :=
  bs.foldl (fun acc b => acc * 256 + b) 0

/-- The `n` low bytes of `v`, most significant first. -/
def toBigEndian : Nat → Nat → List Nat
  | 0, _ => []
  | n + 1, v => toBigEndian n (v / 256) ++ [v % 256]

/-- A DER element with tag `tag` and a length in the short form at the head of `bs`:
its content and the bytes after it. -/
def parseElement (tag : Nat) : List Nat → Option (List Nat × List Nat)
  | t :: len :: rest =>
    if t = tag ∧ len < 0x80 ∧ len ≤ rest.length then some (rest.take len, rest.drop len)
    else none
  | _ => none

/-- The contents of the two INTEGERs of a `SEQUENCE { INTEGER, INTEGER }` that makes
up the whole of `bs`, read by tag and length alone: the contents are not checked, so
this reader also accepts INTEGERs that are not minimal, which DER forbids. -/
def parseSignatureContents (bs : List Nat) : Option (List Nat × List Nat) :=
  match parseElement 0x30 bs with
  | some (body, []) =>
    match parseElement 0x02 body with
    | some (c1, rest) =>
      match parseElement 0x02 rest with
      | some (c2, []) => if c1 ≠ [] ∧ c2 ≠ [] then some (c1, c2) else none
      | _ => none
    | none => none
  | _ => none

/-- The value of the content of an INTEGER: big-endian two's complement. -/
def integerValue (content : List Nat) : Int :=
  if highBit (content.headD 0) then (beValue content : Int) - 256 ^ content.length
  else (beValue content : Int)

/-- The content `c` of an INTEGER is minimal: the high bit of its first byte is clear,
and it does not start with a `0x00` byte unless the following byte has its high bit
set. -/
def minimalInteger (c : List Nat) : Bool :=
  !highBit (c.headD 0) && !(c.headD 0 == 0 && decide (2 ≤ c.length) && !highBit (c.getD 1 0))

/-- The integer `v` as 32 bytes, most significant first; `none` when `v` is negative or
does not fit in 32 bytes. -/
def fixedWidth32 (v : Int) : Option (List Nat) :=
  if 0 ≤ v ∧ v.toNat < 256 ^ 32 then some (toBigEndian 32 v.toNat) else none

/-- The contents of the two INTEGERs of a DER `SEQUENCE { INTEGER, INTEGER }` that
makes up the whole of `bs`: as DER demands, each INTEGER has to be minimal. -/
def parseDerSignature (bs : List Nat) : Option (List Nat × List Nat) :=
  match parseSignatureContents bs with
  | some (c1, c2) => if minimalInteger c1 && minimalInteger c2 then some (c1, c2) else none
  | none => none

/-- The signature `bs` read as DER and each integer written again in 32 bytes. -/
def decodeToRaw (bs : List Nat) : Option (List Nat × List Nat) :=
  match parseDerSignature bs with
  | some (c1, c2) =>
    match fixedWidth32 (integerValue c1), fixedWidth32 (integerValue c2) with
    | some r, some s => some (r, s)
    | _, _ => none
  | none => none

/-! ## Sample inputs -/

/-- Sample values of the constants, for evaluating the functions at a concrete input:
the values of PKCS #11 for its constants, 32-bit sizes, negative TLS error codes. -/
def sampleConstants : Constants :=
  { CKR_OK := 0, CKR_ARGUMENTS_BAD := 7, CK_INVALID_HANDLE := 0, CKM_ECDSA := 0x1041,
    CKO_PRIVATE_KEY := 3, CKO_PUBLIC_KEY := 2, CKK_EC := 3,
    TLS_ERROR_RNG := -2001, TLS_ERROR_SIGN := -2002,
    sizeofObjectClass := 4, sizeofKeyType := 4, sizeofPkInfo := 48, sizeofJitrCaPem := 1,
    DEMO_PART := 0 }

/-- Sample values of the globals: session 1, private key handle 0xA1, public 0xB2. -/
def sampleGlobals : Globals :=
  { xGlobalSession := 1, xResult := 0, xPrivateKeyHandle := 0xA1, xPublicKeyHandle := 0xB2 }

/-- A token that signs: `r` is 32 bytes `0x7f`, `s` is `0x80` and 31 bytes `0x7f`. -/
def sampleSignToken : SignToken :=
  { C_SignInit := fun _ _ _ => 0
    C_Sign := fun _ _ _ =>
      { rv := 0, signature := List.replicate 32 0x7f ++ 0x80 :: List.replicate 31 0x7f,
        ulSignatureLen := 64 } }

/-- Replies of a run in which every call succeeds: key handles 0xA1 and 0xB2, the class
and key type attributes as expected, a public point of 67 bytes. -/
def sampleEnv : ProvisionEnv :=
  { xInitializePkcs11Session := (0, 1)
    C_GetFunctionList := 0
    pxGlobalFunctionList := 0x1000
    deviceCertificate := (0, 0xC3)
    jitpCertificate := (0, 0xC4)
    xDestroyCredentials := 0
    xProvisionGenerateKeyPairEC := (0, 0xA1, 0xB2)
    classLength := { rv := 0, ulValueLen := 4, value := 0 }
    privateClass := { rv := 0, ulValueLen := 4, value := 3 }
    publicClass := { rv := 0, ulValueLen := 4, value := 2 }
    privateKeyType := { rv := 0, ulValueLen := 4, value := 3 }
    publicKeyType := { rv := 0, ulValueLen := 4, value := 3 }
    ecPoint := { rv := 0, ulValueLen := 67, value := 0x04 }
    C_SignInit := 0
    C_Sign := 0
    mbedtls_ecp_group_load := 0
    mbedtls_ecp_point_read_binary := 0
    mbedtls_pk_info_from_type := 0x2000
    header_copy := 0x3000
    mbedtls_pk_setup := 0
    mbedtls_x509write_csr_set_subject_name := 0
    mbedtls_x509write_csr_set_key_usage := 0
    mbedtls_x509write_csr_set_ns_cert_type := 0
    final_csr := 0x4000
    mbedtls_x509write_csr_pem := 0 }

/-! ## Selecting events -/

/-- The event is a call of `C_GenerateRandom`. -/
def Event.isGenerateRandom : Event → Bool
  | Event.call (ExtFn.C_GenerateRandom _ _ _) => true
  | _ => false

/-- The event is a call of `xProvisionCertificate`. -/
def Event.isProvisionCertificate : Event → Bool
  | Event.call (ExtFn.xProvisionCertificate _ _) => true
  | _ => false

/-- The event is a call into the token. -/
def Event.isTokenCall : Event → Bool
  | Event.call (ExtFn.C_SignInit _ _ _) => true
  | Event.call (ExtFn.C_Sign _ _) => true
  | _ => false

/-! ## Lemmas on memory -/

theorem readBytes_length (m : Mem) (off n : Nat) : (readBytes m off n).length = n := by
  simp [readBytes]

theorem readBytes_succ (m : Mem) (off n : Nat) :
    readBytes m off (n + 1) = m off :: readBytes m (off + 1) n := by
  simp only [readBytes, List.range_succ_eq_map, List.map_cons, List.map_map, Nat.add_zero]
  congr 1
  apply List.map_congr_left
  intro i _
  simp only [Function.comp, Nat.succ_eq_add_one]
  congr 1
  omega

theorem readBytes_zero (m : Mem) (off : Nat) : readBytes m off 0 = [] := by
  simp [readBytes]

theorem readBytes_add (m : Mem) (off a b : Nat) :
    readBytes m off (a + b) = readBytes m off a ++ readBytes m (off + a) b := by
  induction a generalizing off with
  | zero => simp [readBytes_zero]
  | succ a ih =>
    rw [show a + 1 + b = (a + b) + 1 by omega, readBytes_succ, readBytes_succ, ih]
    simp only [List.cons_append]
    congr 3
    omega

theorem readBytes_congr (m m2 : Mem) (off off2 n : Nat)
    (h : ∀ i, i < n → m (off + i) = m2 (off2 + i)) :
    readBytes m off n = readBytes m2 off2 n := by
  simp only [readBytes]
  apply List.map_congr_left
  intro i hi
  exact h i (List.mem_range.mp hi)

theorem readBytes_headD (m : Mem) (off n : Nat) (h : 0 < n) :
    (readBytes m off n).headD 0 = m off := by
  obtain ⟨k, rfl⟩ : ∃ k, n = k + 1 := ⟨n - 1, by omega⟩
  simp [readBytes_succ]

theorem Mem.set_eq (m : Mem) (i v : Nat) : (m.set i v) i = v := by
  simp [Mem.set]

theorem Mem.set_ne (m : Mem) (i v j : Nat) (h : j ≠ i) : (m.set i v) j = m j := by
  simp [Mem.set, h]

theorem memcpy_in (dst : Mem) (d : Nat) (src : Mem) (s n j : Nat) (h1 : d ≤ j) (h2 : j < d + n) :
    memcpy dst d src s n j = src (s + (j - d)) := by
  simp [memcpy, h1, h2]

theorem memcpy_out (dst : Mem) (d : Nat) (src : Mem) (s n j : Nat) (h : j < d ∨ d + n ≤ j) :
    memcpy dst d src s n j = dst j := by
  have : ¬ (d ≤ j ∧ j < d + n) := by omega
  simp [memcpy, this]

theorem ucTemp_lt (buf : Mem) (i : Nat) (h : i < 64) : ucTempAfterCopy buf 64 i = buf i := by
  simp [ucTempAfterCopy, memcpy, h]

theorem readBytes_replicate (m : Mem) (off n v : Nat) (h : ∀ i, i < n → m (off + i) = v) :
    readBytes m off n = List.replicate n v := by
  induction n generalizing off with
  | zero => simp [readBytes_zero]
  | succ n ih =>
    rw [readBytes_succ, List.replicate_succ, ih]
    · have := h 0 (by omega)
      simpa using this
    · intro i hi
      have := h (i + 1) (by omega)
      rw [← this]
      congr 1
      omega

/-! ## The layout of the reformatted signature -/

theorem layout_of_pointwise (m buf : Mem) (a b LL L1 L2 : Nat)
    (h0 : m 0 = 0x30) (h1 : m 1 = LL) (h2 : m 2 = 0x02) (h3 : m 3 = L1)
    (hz1 : ∀ i, i < a → m (4 + i) = 0)
    (hr : ∀ i, i < 32 → m (4 + a + i) = buf i)
    (h4 : m (36 + a) = 0x02) (h5 : m (37 + a) = L2)
    (hz2 : ∀ i, i < b → m (38 + a + i) = 0)
    (hs : ∀ i, i < 32 → m (38 + a + b + i) = buf (32 + i)) :
    readBytes m 0 (0x44 + (a + b) + 2)
      = [0x30, LL, 0x02, L1] ++ (List.replicate a 0 ++ readBytes buf 0 32)
          ++ [0x02, L2] ++ (List.replicate b 0 ++ readBytes buf 32 32) := by
  rw [show 0x44 + (a + b) + 2 = 4 + (a + (32 + (2 + (b + 32)))) by omega]
  rw [readBytes_add _ _ 4, readBytes_add _ _ a, readBytes_add _ _ 32, readBytes_add _ _ 2,
    readBytes_add _ _ b]
  have e1 : readBytes m 0 4 = [0x30, LL, 0x02, L1] := by
    simp [readBytes, List.range_succ, h0, h1, h2, h3]
  have e2 : readBytes m (0 + 4 + a + 32) 2 = [0x02, L2] := by
    have h4b : m (4 + a + 32) = 2 := by rw [← h4]; congr 1; omega
    have h5b : m (4 + a + 32 + 1) = L2 := by rw [← h5]; congr 1; omega
    simp [readBytes, List.range_succ, h4b, h5b]
  rw [e1, e2, readBytes_replicate m (0 + 4) a 0 (by intro i hi; simpa using hz1 i hi),
    readBytes_replicate m (0 + 4 + a + 32 + 2) b 0
      (by intro i hi; rw [show 0 + 4 + a + 32 + 2 + i = 38 + a + i by omega]; exact hz2 i hi),
    readBytes_congr m buf (0 + 4 + a) 0 32 (by intro i hi; simpa using hr i hi),
    readBytes_congr m buf (0 + 4 + a + 32 + 2 + b) 32 32
      (by intro i hi
          rw [show 0 + 4 + a + 32 + 2 + b + i = 38 + a + b + i by omega]; exact hs i hi)]
  simp

theorem intContent_readBytes (buf : Mem) (off : Nat) :
    intContent (readBytes buf off 32)
      = List.replicate (if highBit (buf off) then 1 else 0) 0 ++ readBytes buf off 32 := by
  simp only [intContent, readBytes_headD _ _ 32 (by omega)]
  split <;> simp

/-- The bytes and the length the reformatting step leaves, for a raw signature of 64
bytes in the buffer. -/
theorem reformat_bytes (buf : Mem) :
    readBytes (reformatSignature buf 64).1 0
        (0x44 + prefixCount (readBytes buf 0 32) (readBytes buf 32 32) + 2)
      = [0x30, 0x44 + prefixCount (readBytes buf 0 32) (readBytes buf 32 32), 0x02,
          intLen (buf 0)]
          ++ intContent (readBytes buf 0 32) ++ [0x02, intLen (buf 32)]
          ++ intContent (readBytes buf 32 32)
    ∧ (reformatSignature buf 64).2
        = 0x44 + prefixCount (readBytes buf 0 32) (readBytes buf 32 32) + 2 := by
  have h0 : ucTempAfterCopy buf 64 0 = buf 0 := ucTemp_lt buf 0 (by omega)
  have h32 : ucTempAfterCopy buf 64 32 = buf 32 := ucTemp_lt buf 32 (by omega)
  simp only [intContent_readBytes, prefixCount, intLen, readBytes_headD _ _ 32 (by omega)]
  refine ⟨layout_of_pointwise _ buf (if highBit (buf 0) then 1 else 0)
    (if highBit (buf 32) then 1 else 0) _ _ _ ?_ ?_ ?_ ?_ ?_ ?_ ?_ ?_ ?_ ?_, ?_⟩
  all_goals
    by_cases hr : highBit (buf 0) = true <;> by_cases hs : highBit (buf 32) = true
  all_goals
    have hr2 := hr
    have hs2 := hs
    simp only [highBit, bne_iff_ne, ne_eq] at hr2 hs2
    simp only [reformatSignature, h0, h32, hr, hs, hr2, hs2, ne_eq, not_false_eq_true,
      not_true_eq_false, if_true, if_false, Bool.false_eq_true]
  all_goals try intro i hi
  all_goals
    simp (disch := omega) only [Mem.set_eq, Mem.set_ne, memcpy_in, memcpy_out, ucTemp_lt]
  all_goals first
    | omega
    | (congr 1; omega)
    | (obtain rfl : i = 0 := by omega
       simp (disch := omega) only [Mem.set_eq, Mem.set_ne, memcpy_in, memcpy_out, ucTemp_lt])

/-- Claim C1.  For a raw signature of 64 bytes `r ‖ s` in the output buffer with
reported length 64, the reformatting step of `prvPrivateKeySigningCallback` leaves a
buffer that begins with `0x30, LL, 0x02, L1, R, 0x02, L2, S`: `R` is `0x00 ‖ r` with
`L1 = 0x21` when `r[0] & 0x80` is not zero and `r` with `L1 = 0x20` otherwise, `S` and
`L2` likewise from `s`, `LL` is `0x44` plus the number of halves that got the prefix,
and the length stored is `LL + 2`. -/
theorem reformat_layout (pucSig : Mem) :
    readBytes (reformatSignature pucSig 64).1 0
        (0x44 + prefixCount (readBytes pucSig 0 32) (readBytes pucSig 32 32) + 2)
      = [0x30, 0x44 + prefixCount (readBytes pucSig 0 32) (readBytes pucSig 32 32), 0x02,
          intLen ((readBytes pucSig 0 32).headD 0)]
          ++ intContent (readBytes pucSig 0 32)
          ++ [0x02, intLen ((readBytes pucSig 32 32).headD 0)]
          ++ intContent (readBytes pucSig 32 32)
    ∧ (reformatSignature pucSig 64).2
        = 0x44 + prefixCount (readBytes pucSig 0 32) (readBytes pucSig 32 32) + 2 := by
  rw [readBytes_headD _ _ 32 (by omega), readBytes_headD _ _ 32 (by omega)]
  exact reformat_bytes pucSig

/-- Claim C3, as stated, fails: for the raw signature of 64 zero bytes neither `r[0]`
nor `s[0]` has the high bit set, and the length the reformatter stores is 70, not 68. -/
theorem reformat_total_length_counterexample :
    highBit ((fun _ => 0 : Mem) 0) = false ∧ highBit ((fun _ => 0 : Mem) 32) = false
      ∧ (reformatSignature (fun _ => 0) 64).2 = 70
      ∧ (reformatSignature (fun _ => 0) 64).2 ≠ 68 := by
  decide

/-- Claim C3, amended.  For a raw signature of 64 bytes the length the reformatter
stores through the length parameter is 72 when both `r[0]` and `s[0]` have the high
bit set, 71 when exactly one has and 70 when neither has, so it is always 70, 71 or
72; it is the sequence length byte (68, 69 or 70) plus 2. -/
theorem reformat_total_length (pucSig : Mem) :
    (reformatSignature pucSig 64).2
        = (if highBit (pucSig 0) && highBit (pucSig 32) then 72
           else if highBit (pucSig 0) || highBit (pucSig 32) then 71 else 70)
    ∧ ((reformatSignature pucSig 64).2 = 70 ∨ (reformatSignature pucSig 64).2 = 71
        ∨ (reformatSignature pucSig 64).2 = 72)
    ∧ (reformatSignature pucSig 64).2 = (reformatSignature pucSig 64).1 1 + 2
    ∧ ((reformatSignature pucSig 64).1 1 = 68 ∨ (reformatSignature pucSig 64).1 1 = 69
        ∨ (reformatSignature pucSig 64).1 1 = 70) := by
  have h := (reformat_bytes pucSig).2
  have hb : (reformatSignature pucSig 64).2 = (reformatSignature pucSig 64).1 1 + 2 := rfl
  simp only [prefixCount, readBytes_headD _ _ 32 (by omega)] at h
  have h1 : (reformatSignature pucSig 64).1 1
      = 68 + ((if highBit (pucSig 0) = true then 1 else 0)
          + if highBit (pucSig 32) = true then 1 else 0) := by omega
  refine ⟨?_, ?_, hb, ?_⟩
  · rw [h]; cases highBit (pucSig 0) <;> cases highBit (pucSig 32) <;> simp
  · rw [h]; cases highBit (pucSig 0) <;> cases highBit (pucSig 32) <;> simp
  · rw [h1]; cases highBit (pucSig 0) <;> cases highBit (pucSig 32) <;> simp

/-! ## Reading the reformatted signature back -/

theorem beValue_append_singleton (l : List Nat) (b : Nat) :
    beValue (l ++ [b]) = beValue l * 256 + b := by
  simp [beValue, List.foldl_append]

theorem beValue_cons_zero (l : List Nat) : beValue (0 :: l) = beValue l := by
  simp [beValue]

theorem toBigEndian_beValue (l : List Nat) (h : ∀ b, b ∈ l → b < 256) :
    toBigEndian l.length (beValue l) = l := by
  induction l using List.reverseRecOn with
  | nil => simp [toBigEndian]
  | append_singleton l b ih =>
    have hb : b < 256 := h b (by simp)
    have hl : ∀ c, c ∈ l → c < 256 := fun c hc => h c (by simp [hc])
    rw [List.length_append, List.length_singleton, beValue_append_singleton, toBigEndian]
    have e1 : (beValue l * 256 + b) / 256 = beValue l := by omega
    have e2 : (beValue l * 256 + b) % 256 = b := by omega
    rw [e1, e2, ih hl]

theorem parseElement_append (tag : Nat) (c rest : List Nat) (h : c.length < 0x80) :
    parseElement tag (tag :: c.length :: (c ++ rest)) = some (c, rest) := by
  simp [parseElement, h]

theorem parseSignatureContents_layout (R S : List Nat) (hR : R ≠ []) (hS : S ≠ [])
    (hlen : 4 + R.length + S.length < 0x80) :
    parseSignatureContents
        ([0x30, 4 + R.length + S.length, 0x02, R.length] ++ R ++ [0x02, S.length] ++ S)
      = some (R, S) := by
  have e : [0x30, 4 + R.length + S.length, 0x02, R.length] ++ R ++ [0x02, S.length] ++ S
      = 0x30 :: (0x02 :: R.length :: (R ++ (0x02 :: S.length :: (S ++ [])))).length
          :: ((0x02 :: R.length :: (R ++ (0x02 :: S.length :: (S ++ [])))) ++ []) := by
    simp
    omega
  rw [e]
  simp only [parseSignatureContents]
  rw [parseElement_append _ _ _ (by simp; omega)]
  simp only []
  rw [parseElement_append _ _ _ (by omega)]
  simp only []
  rw [parseElement_append _ _ _ (by omega)]
  simp [hR, hS]

theorem intContent_length (buf : Mem) (off : Nat) :
    (intContent (readBytes buf off 32)).length = intLen (buf off) := by
  simp only [intContent, intLen, readBytes_headD _ _ 32 (by omega)]
  split <;> simp [readBytes_length]

theorem intContent_ne_nil (buf : Mem) (off : Nat) : intContent (readBytes buf off 32) ≠ [] := by
  intro h
  have := intContent_length buf off
  rw [h] at this
  simp only [intLen] at this
  split at this <;> simp at this

theorem highBit_zero : highBit 0 = false := by decide

theorem intContent_headD (buf : Mem) (off : Nat) :
    highBit ((intContent (readBytes buf off 32)).headD 0) = false := by
  simp only [intContent, readBytes_headD _ _ 32 (by omega)]
  by_cases h : highBit (buf off) = true
  · rw [if_pos h]
    exact highBit_zero
  · rw [if_neg h, readBytes_headD _ _ 32 (by omega)]
    simpa using h

theorem highBit_ne_zero (b : Nat) (h : highBit b = true) : b ≠ 0 := by
  intro hb
  rw [hb, highBit_zero] at h
  exact Bool.false_ne_true h

theorem minimalInteger_intContent (buf : Mem) (off : Nat) :
    minimalInteger (intContent (readBytes buf off 32))
      = (decide (buf off ≠ 0) || highBit (buf (off + 1))) := by
  have e : readBytes buf off 32 = buf off :: buf (off + 1) :: readBytes buf (off + 1 + 1) 30 := by
    rw [show 32 = 30 + 1 + 1 by rfl, readBytes_succ, readBytes_succ]
  rw [e]
  simp only [intContent, List.headD_cons]
  by_cases h : highBit (buf off) = true
  · have hne := highBit_ne_zero _ h
    simp [minimalInteger, h, hne, highBit_zero]
  · simp only [Bool.not_eq_true] at h
    by_cases hz : buf off = 0
    · simp [minimalInteger, h, hz, highBit_zero, readBytes_length]
    · simp [minimalInteger, h, hz]

theorem integerValue_intContent (buf : Mem) (off : Nat) :
    integerValue (intContent (readBytes buf off 32)) = (beValue (readBytes buf off 32) : Int) := by
  simp only [integerValue, intContent_headD, Bool.false_eq_true, if_false]
  simp only [intContent]
  split <;> simp [beValue_cons_zero]

theorem reformat_parse (buf : Mem) :
    parseSignatureContents
        (readBytes (reformatSignature buf 64).1 0 (reformatSignature buf 64).2)
      = some (intContent (readBytes buf 0 32), intContent (readBytes buf 32 32)) := by
  have h := reformat_bytes buf
  rw [h.2, h.1]
  have hl1 := intContent_length buf 0
  have hl2 := intContent_length buf 32
  have hc : 0x44 + prefixCount (readBytes buf 0 32) (readBytes buf 32 32)
      = 4 + (intContent (readBytes buf 0 32)).length
          + (intContent (readBytes buf 32 32)).length := by
    rw [hl1, hl2]
    simp only [prefixCount, intLen, readBytes_headD _ _ 32 (by omega)]
    split <;> split <;> rfl
  rw [hc, ← hl1, ← hl2]
  apply parseSignatureContents_layout _ _ (intContent_ne_nil buf 0) (intContent_ne_nil buf 32)
  rw [hl1, hl2]
  simp only [intLen]
  split <;> split <;> decide

theorem beValue_lt (l : List Nat) (h : ∀ b, b ∈ l → b < 256) : beValue l < 256 ^ l.length := by
  induction l using List.reverseRecOn with
  | nil => simp [beValue]
  | append_singleton l b ih =>
    have hb : b < 256 := h b (by simp)
    have hl := ih (fun c hc => h c (by simp [hc]))
    rw [List.length_append, List.length_singleton, beValue_append_singleton, pow_succ]
    omega

theorem fixedWidth32_half (buf : Mem) (off : Nat) (h : ∀ i, i < 32 → buf (off + i) < 256) :
    fixedWidth32 (integerValue (intContent (readBytes buf off 32)))
      = some (readBytes buf off 32) := by
  have hl : (readBytes buf off 32).length = 32 := readBytes_length _ _ _
  have hb : ∀ b, b ∈ readBytes buf off 32 → b < 256 := by
    intro b hb
    simp only [readBytes, List.mem_map, List.mem_range] at hb
    obtain ⟨i, hi, rfl⟩ := hb
    exact h i hi
  have hlt := beValue_lt _ hb
  have hbe := toBigEndian_beValue _ hb
  rw [hl] at hlt hbe
  rw [integerValue_intContent, fixedWidth32, Int.toNat_ofNat, hbe,
    if_pos ⟨Int.ofNat_nonneg _, hlt⟩]

theorem reformat_parseDer (buf : Mem) :
    parseDerSignature
        (readBytes (reformatSignature buf 64).1 0 (reformatSignature buf 64).2)
      = if ((decide (buf 0 ≠ 0) || highBit (buf 1))
            && (decide (buf 32 ≠ 0) || highBit (buf 33))) = true
        then some (intContent (readBytes buf 0 32), intContent (readBytes buf 32 32))
        else none := by
  rw [parseDerSignature, reformat_parse]
  simp only [minimalInteger_intContent]

/-- Claim C2, as stated, fails: for the raw signature whose first byte is `0x00` and
whose other bytes are `0x01`, the first INTEGER of the output starts with `0x00 0x01`
and is not minimal, so the output is not DER and reading it as DER gives nothing,
although reading it by tag and length alone still finds both contents. -/
theorem reformat_round_trip_counterexample :
    decodeToRaw (readBytes
        (reformatSignature (fun j => if j = 0 then 0x00 else 0x01) 64).1 0
        (reformatSignature (fun j => if j = 0 then 0x00 else 0x01) 64).2) = none
    ∧ (parseSignatureContents (readBytes
        (reformatSignature (fun j => if j = 0 then 0x00 else 0x01) 64).1 0
        (reformatSignature (fun j => if j = 0 then 0x00 else 0x01) 64).2)).isSome = true := by
  decide

/-- Claim C2, amended.  For a raw signature of 64 bytes, the output of the reformatter
read as a DER sequence of two INTEGERs, each decoded integer written again in 32
bytes, gives `r` and `s` exactly when each half has a first byte other than zero or a
second byte with the high bit set; for the other signatures the output is not DER.
Read by tag and length alone, without the check that the INTEGERs are minimal, the
output gives `r` and `s` for every raw signature. -/
theorem reformat_round_trip (pucSig : Mem) (hbytes : ∀ i, i < 64 → pucSig i < 256) :
    decodeToRaw (readBytes (reformatSignature pucSig 64).1 0 (reformatSignature pucSig 64).2)
      = (if ((decide (pucSig 0 ≠ 0) || highBit (pucSig 1))
            && (decide (pucSig 32 ≠ 0) || highBit (pucSig 33))) = true
         then some (readBytes pucSig 0 32, readBytes pucSig 32 32) else none)
    ∧ (parseSignatureContents
          (readBytes (reformatSignature pucSig 64).1 0 (reformatSignature pucSig 64).2)).map
        (fun c => (fixedWidth32 (integerValue c.1), fixedWidth32 (integerValue c.2)))
      = some (some (readBytes pucSig 0 32), some (readBytes pucSig 32 32)) := by
  have h1 := fixedWidth32_half pucSig 0 (fun i hi => by simpa using hbytes i (by omega))
  have h2 := fixedWidth32_half pucSig 32 (fun i hi => hbytes (32 + i) (by omega))
  constructor
  · rw [decodeToRaw, reformat_parseDer]
    by_cases hc : ((decide (pucSig 0 ≠ 0) || highBit (pucSig 1))
        && (decide (pucSig 32 ≠ 0) || highBit (pucSig 33))) = true
    · rw [if_pos hc, if_pos hc]
      simp only [h1, h2]
    · rw [if_neg hc, if_neg hc]
  · rw [reformat_parse]
    simp only [Option.map_some', h1, h2]

/-- The amended claim C2 at the raw signature with `r` of 32 bytes `0x7f` and `s` of
the byte `0x80` and 31 bytes `0x7f`. -/
theorem reformat_round_trip_witness :
    (∀ i, i < 64 → (fun j => if j = 32 then 0x80 else 0x7f : Mem) i < 256)
    ∧ decodeToRaw (readBytes
          (reformatSignature (fun j => if j = 32 then 0x80 else 0x7f) 64).1 0
          (reformatSignature (fun j => if j = 32 then 0x80 else 0x7f) 64).2)
        = some (readBytes (fun j => if j = 32 then 0x80 else 0x7f) 0 32,
                readBytes (fun j => if j = 32 then 0x80 else 0x7f) 32 32) :=
  ⟨by decide, (reformat_round_trip _ (by decide)).1⟩

/-- Claim C4, as stated, fails: for the raw signature whose first byte is `0x00` and
whose other bytes are `0x01`, the first INTEGER of the output has the 32 bytes of `r`
as content, which start with `0x00` followed by `0x01`: it is not minimal. -/
theorem reformat_minimal_counterexample :
    (parseSignatureContents (readBytes
        (reformatSignature (fun j => if j = 0 then 0x00 else 0x01) 64).1 0
        (reformatSignature (fun j => if j = 0 then 0x00 else 0x01) 64).2)).map
      (fun c => (c.1, minimalInteger c.1, minimalInteger c.2))
      = some (0x00 :: List.replicate 31 0x01, false, true) := by
  decide

/-- Claim C4, amended.  For a raw signature of 64 bytes the two INTEGERs of the output
hold the halves `r` and `s`, each with one `0x00` byte in front exactly when the first
byte of the half has the high bit set.  The first content byte of each has the high
bit clear and the value of each is the value of its half.  Leading zero bytes of a
half are never removed: the content is minimal exactly when the first byte of the half
is not zero or its second byte has the high bit set. -/
theorem reformat_integers (pucSig : Mem) :
    parseSignatureContents
        (readBytes (reformatSignature pucSig 64).1 0 (reformatSignature pucSig 64).2)
      = some (intContent (readBytes pucSig 0 32), intContent (readBytes pucSig 32 32))
    ∧ highBit ((intContent (readBytes pucSig 0 32)).headD 0) = false
    ∧ highBit ((intContent (readBytes pucSig 32 32)).headD 0) = false
    ∧ integerValue (intContent (readBytes pucSig 0 32)) = (beValue (readBytes pucSig 0 32) : Int)
    ∧ integerValue (intContent (readBytes pucSig 32 32)) = (beValue (readBytes pucSig 32 32) : Int)
    ∧ minimalInteger (intContent (readBytes pucSig 0 32))
        = (decide (pucSig 0 ≠ 0) || highBit (pucSig 1))
    ∧ minimalInteger (intContent (readBytes pucSig 32 32))
        = (decide (pucSig 32 ≠ 0) || highBit (pucSig 33)) :=
  ⟨reformat_parse pucSig, intContent_headD pucSig 0, intContent_headD pucSig 32,
    integerValue_intContent pucSig 0, integerValue_intContent pucSig 32,
    minimalInteger_intContent pucSig 0, minimalInteger_intContent pucSig 32⟩

/-! ## The signing callback -/

theorem readBytes_memcpy (z src : Mem) (n : Nat) :
    readBytes (memcpy z 0 src 0 n) 0 n = readBytes src 0 n := by
  apply readBytes_congr
  intro i hi
  simp [memcpy, hi]

theorem signWithToken_xResult (k : Constants) (g : Globals) (tok : SignToken)
    (pucHash : Mem) (xHashLen : Nat) (pucSig : Mem) (xSigLen : Nat)
    (hB : k.CKR_ARGUMENTS_BAD ≠ 0) :
    (signWithToken k g tok pucHash xHashLen pucSig xSigLen).xResult = 0
      ↔ xHashLen ≤ 256
        ∧ tok.C_SignInit g.xGlobalSession k.CKM_ECDSA g.xPrivateKeyHandle = 0
        ∧ (tok.C_Sign g.xGlobalSession (readBytes pucHash 0 xHashLen) 256).rv = 0 := by
  simp only [signWithToken, readBytes_memcpy]
  by_cases h1 : xHashLen > 256
  · have h1b : ¬ xHashLen ≤ 256 := by omega
    simp [h1, h1b, hB, Ne.symm hB]
  · have h1b : xHashLen ≤ 256 := by omega
    by_cases h2 : tok.C_SignInit g.xGlobalSession k.CKM_ECDSA g.xPrivateKeyHandle = 0
    · simp [h1, h1b, h2]
    · simp [h1, h1b, h2, Ne.symm h2]

theorem signWithToken_xSigLen (k : Constants) (g : Globals) (tok : SignToken)
    (pucHash : Mem) (xHashLen : Nat) (pucSig : Mem) (xSigLen : Nat)
    (hB : k.CKR_ARGUMENTS_BAD ≠ 0) :
    (signWithToken k g tok pucHash xHashLen pucSig xSigLen).xSigLen
      = if xHashLen ≤ 256 ∧ tok.C_SignInit g.xGlobalSession k.CKM_ECDSA g.xPrivateKeyHandle = 0
        then (tok.C_Sign g.xGlobalSession (readBytes pucHash 0 xHashLen) 256).ulSignatureLen
        else xSigLen := by
  simp only [signWithToken, readBytes_memcpy]
  by_cases h1 : xHashLen > 256
  · have h1b : ¬ xHashLen ≤ 256 := by omega
    simp [h1, h1b, hB, Ne.symm hB]
  · have h1b : xHashLen ≤ 256 := by omega
    by_cases h2 : tok.C_SignInit g.xGlobalSession k.CKM_ECDSA g.xPrivateKeyHandle = 0
    · simp [h1, h1b, h2]
    · simp [h1, h1b, h2, Ne.symm h2]

theorem signWithToken_trace_oversize (k : Constants) (g : Globals) (tok : SignToken)
    (pucHash : Mem) (xHashLen : Nat) (pucSig : Mem) (xSigLen : Nat)
    (hB : k.CKR_ARGUMENTS_BAD ≠ 0) (h : 256 < xHashLen) :
    (signWithToken k g tok pucHash xHashLen pucSig xSigLen).trace = [] := by
  simp [signWithToken, h, hB, Ne.symm hB]

/-- Claim C5, as stated, fails: for a digest of 257 bytes the callback returns the
status `TLS_ERROR_SIGN`, the same as for a failure of the token, and no other status
for a bad input; the token is not called. -/
theorem signing_result_codes_counterexample :
    (prvPrivateKeySigningCallback sampleConstants true sampleGlobals sampleSignToken
        (fun _ => 0xab) 257 (fun _ => 0) 64).map
      (fun o => (o.lFinalResult, o.trace.filter Event.isTokenCall))
      = some (sampleConstants.TLS_ERROR_SIGN, []) := by
  decide

theorem signWithToken_of_le (k : Constants) (g : Globals) (tok : SignToken)
    (pucHash : Mem) (xHashLen : Nat) (pucSig : Mem) (xSigLen : Nat) (hH : xHashLen ≤ 256) :
    ((signWithToken k g tok pucHash xHashLen pucSig xSigLen).xResult = 0
      ↔ tok.C_SignInit g.xGlobalSession k.CKM_ECDSA g.xPrivateKeyHandle = 0
        ∧ (tok.C_Sign g.xGlobalSession (readBytes pucHash 0 xHashLen) 256).rv = 0)
    ∧ (signWithToken k g tok pucHash xHashLen pucSig xSigLen).xSigLen
      = (if tok.C_SignInit g.xGlobalSession k.CKM_ECDSA g.xPrivateKeyHandle = 0
        then (tok.C_Sign g.xGlobalSession (readBytes pucHash 0 xHashLen) 256).ulSignatureLen
        else xSigLen) := by
  have h1 : ¬ xHashLen > 256 := by omega
  simp only [signWithToken, readBytes_memcpy]
  by_cases h2 : tok.C_SignInit g.xGlobalSession k.CKM_ECDSA g.xPrivateKeyHandle = 0
  · simp [h1, h2]
  · simp [h1, h2, Ne.symm h2]

theorem signWithToken_calls_sign (k : Constants) (g : Globals) (tok : SignToken)
    (pucHash : Mem) (xHashLen : Nat) (pucSig : Mem) (xSigLen : Nat)
    (hB : k.CKR_ARGUMENTS_BAD ≠ 0) :
    Event.call (ExtFn.C_Sign g.xGlobalSession (readBytes pucHash 0 xHashLen))
        ∈ (signWithToken k g tok pucHash xHashLen pucSig xSigLen).trace
      ↔ xHashLen ≤ 256
        ∧ tok.C_SignInit g.xGlobalSession k.CKM_ECDSA g.xPrivateKeyHandle = 0 := by
  simp only [signWithToken, readBytes_memcpy]
  by_cases h1 : xHashLen > 256
  · have h1b : ¬ xHashLen ≤ 256 := by omega
    simp [h1, h1b, hB, Ne.symm hB]
  · have h1b : xHashLen ≤ 256 := by omega
    by_cases h2 : tok.C_SignInit g.xGlobalSession k.CKM_ECDSA g.xPrivateKeyHandle = 0
    · simp [h1, h1b, h2]
    · simp [h1, h1b, h2, Ne.symm h2]

/-- Claim C5, amended.  For a digest of at most 256 bytes and a signature length that
fits `ucTemp` at the reformatting step (64, or at most 64 when a failed assertion does
not halt), `prvPrivateKeySigningCallback` returns, no copy overruns a local array, and
the value returned is 0 exactly when `C_SignInit` and `C_Sign` both return 0 and
`TLS_ERROR_SIGN` when either returns a non-zero value.  The function has no status for
a bad input: a digest longer than 256 bytes is given `CKR_ARGUMENTS_BAD`, which the
same mapping turns into `TLS_ERROR_SIGN`, and nothing is stated for such a digest,
whose copy overruns `xToBeSigned`. -/
theorem signing_result_codes (k : Constants) (assertHalts : Bool) (g : Globals)
    (tok : SignToken) (pucHash : Mem) (xHashLen : Nat) (pucSig : Mem) (xSigLen : Nat)
    (hS : k.TLS_ERROR_SIGN ≠ 0) (hH : xHashLen ≤ 256)
    (hA : (if tok.C_SignInit g.xGlobalSession k.CKM_ECDSA g.xPrivateKeyHandle = 0
        then (tok.C_Sign g.xGlobalSession (readBytes pucHash 0 xHashLen) 256).ulSignatureLen
        else xSigLen) = 64
      ∨ (assertHalts = false
        ∧ (if tok.C_SignInit g.xGlobalSession k.CKM_ECDSA g.xPrivateKeyHandle = 0
          then (tok.C_Sign g.xGlobalSession (readBytes pucHash 0 xHashLen) 256).ulSignatureLen
          else xSigLen) ≤ 64)) :
    ∃ o, prvPrivateKeySigningCallback k assertHalts g tok pucHash xHashLen pucSig xSigLen = some o
      ∧ o.overrun = false
      ∧ (o.lFinalResult = 0 ↔
          tok.C_SignInit g.xGlobalSession k.CKM_ECDSA g.xPrivateKeyHandle = 0
          ∧ (tok.C_Sign g.xGlobalSession (readBytes pucHash 0 xHashLen) 256).rv = 0)
      ∧ (¬ (tok.C_SignInit g.xGlobalSession k.CKM_ECDSA g.xPrivateKeyHandle = 0
            ∧ (tok.C_Sign g.xGlobalSession (readBytes pucHash 0 xHashLen) 256).rv = 0) →
          o.lFinalResult = k.TLS_ERROR_SIGN) := by
  obtain ⟨hx, hl⟩ := signWithToken_of_le k g tok pucHash xHashLen pucSig xSigLen hH
  rw [← hl] at hA
  have hle : (signWithToken k g tok pucHash xHashLen pucSig xSigLen).xSigLen ≤ 64 := by
    rcases hA with hA | hA
    · omega
    · exact hA.2
  have hassert : configASSERT assertHalts
      ((signWithToken k g tok pucHash xHashLen pucSig xSigLen).xSigLen == 64) = some () := by
    rcases hA with hA | hA
    · simp [configASSERT, hA]
    · simp [configASSERT, hA.1]
  have hov : (decide (256 < xHashLen)
      || decide (64 < (signWithToken k g tok pucHash xHashLen pucSig xSigLen).xSigLen))
      = false := by
    have h1 : ¬ 256 < xHashLen := by omega
    have h2 : ¬ 64 < (signWithToken k g tok pucHash xHashLen pucSig xSigLen).xSigLen := by omega
    simp [h1, h2]
  simp only [prvPrivateKeySigningCallback, hassert]
  by_cases h0 : (signWithToken k g tok pucHash xHashLen pucSig xSigLen).xResult = 0
  · simp only [h0, ne_eq, not_true_eq_false, if_false]
    refine ⟨_, rfl, hov, ?_, ?_⟩
    · simp only [true_iff]
      exact hx.mp h0
    · intro h
      exact absurd (hx.mp h0) h
  · simp only [h0, ne_eq, not_false_eq_true, if_true]
    refine ⟨_, rfl, hov, ?_, ?_⟩
    · constructor
      · intro h
        exact absurd h hS
      · intro h
        exact absurd (hx.mpr h) h0
    · intro _
      rfl

/-- The amended claim C5 at a digest of 32 bytes for which `C_SignInit` of the token
returns the error 5, with 64 in `*pxSigLen` on entry. -/
theorem signing_result_codes_witness :
    sampleConstants.TLS_ERROR_SIGN ≠ 0 ∧ 32 ≤ 256
    ∧ ∃ o, prvPrivateKeySigningCallback sampleConstants true sampleGlobals
          { sampleSignToken with C_SignInit := fun _ _ _ => 5 }
          (fun _ => 0xab) 32 (fun _ => 0) 64 = some o
      ∧ o.overrun = false
      ∧ (o.lFinalResult = 0 ↔
          ({ sampleSignToken with C_SignInit := fun _ _ _ => 5 } : SignToken).C_SignInit
              sampleGlobals.xGlobalSession sampleConstants.CKM_ECDSA
              sampleGlobals.xPrivateKeyHandle = 0
          ∧ (({ sampleSignToken with C_SignInit := fun _ _ _ => 5 } : SignToken).C_Sign
              sampleGlobals.xGlobalSession (readBytes (fun _ => 0xab) 0 32) 256).rv = 0)
      ∧ (¬ (({ sampleSignToken with C_SignInit := fun _ _ _ => 5 } : SignToken).C_SignInit
              sampleGlobals.xGlobalSession sampleConstants.CKM_ECDSA
              sampleGlobals.xPrivateKeyHandle = 0
            ∧ (({ sampleSignToken with C_SignInit := fun _ _ _ => 5 } : SignToken).C_Sign
              sampleGlobals.xGlobalSession (readBytes (fun _ => 0xab) 0 32) 256).rv = 0) →
          o.lFinalResult = sampleConstants.TLS_ERROR_SIGN) :=
  ⟨by decide, by decide,
    signing_result_codes sampleConstants true sampleGlobals
      { sampleSignToken with C_SignInit := fun _ _ _ => 5 } (fun _ => 0xab) 32
      (fun _ => 0) 64 (by decide) (by decide) (Or.inl (by decide))⟩

theorem writeBytes_out (m : Mem) (off : Nat) (bs : List Nat) (j : Nat)
    (h : j < off ∨ off + bs.length ≤ j) : writeBytes m off bs j = m j := by
  have : ¬ (off ≤ j ∧ j < off + bs.length) := by omega
  simp [writeBytes, this]

theorem reformatSignature_out (buf : Mem) (n i : Nat) (h : 72 ≤ i) :
    (reformatSignature buf n).1 i = buf i := by
  simp only [reformatSignature]
  split <;> split <;>
    simp (disch := omega) only [Mem.set_ne, memcpy_out]

theorem signWithToken_out (k : Constants) (g : Globals) (tok : SignToken)
    (pucHash : Mem) (xHashLen : Nat) (pucSig : Mem) (xSigLen : Nat)
    (hsig : (tok.C_Sign g.xGlobalSession (readBytes pucHash 0 xHashLen) 256).signature.length
      = 64)
    (i : Nat) (h : 72 ≤ i) :
    (signWithToken k g tok pucHash xHashLen pucSig xSigLen).pucSig i = pucSig i := by
  have hcases : (signWithToken k g tok pucHash xHashLen pucSig xSigLen).pucSig = pucSig
      ∨ (signWithToken k g tok pucHash xHashLen pucSig xSigLen).pucSig
          = writeBytes pucSig 0
              (tok.C_Sign g.xGlobalSession (readBytes pucHash 0 xHashLen) 256).signature := by
    simp only [signWithToken, readBytes_memcpy]
    split_ifs <;> simp
  rcases hcases with hc | hc
  · rw [hc]
  · rw [hc, writeBytes_out _ _ _ _ (by omega)]

/-- Claim C6.  In every call of `prvPrivateKeySigningCallback` in which the token
returns a raw signature, that is in which `C_Sign` is called, and stores 64 bytes with
length 64, the call returns, no copy overruns a local array, and every byte of the
output buffer at index 72 or higher is as it was before the call.  `C_Sign` is called
exactly for a digest of at most 256 bytes after a `C_SignInit` that returns 0. -/
theorem signing_write_bound (k : Constants) (assertHalts : Bool) (g : Globals)
    (tok : SignToken) (pucHash : Mem) (xHashLen : Nat) (pucSig : Mem) (xSigLen : Nat)
    (hB : k.CKR_ARGUMENTS_BAD ≠ 0)
    (hcall : Event.call (ExtFn.C_Sign g.xGlobalSession (readBytes pucHash 0 xHashLen))
      ∈ (signWithToken k g tok pucHash xHashLen pucSig xSigLen).trace)
    (hsig : (tok.C_Sign g.xGlobalSession (readBytes pucHash 0 xHashLen) 256).signature.length
      = 64)
    (hlen : (tok.C_Sign g.xGlobalSession (readBytes pucHash 0 xHashLen) 256).ulSignatureLen
      = 64) :
    ∃ o, prvPrivateKeySigningCallback k assertHalts g tok pucHash xHashLen pucSig xSigLen = some o
      ∧ o.overrun = false
      ∧ xHashLen ≤ 256
      ∧ ∀ i, 72 ≤ i → o.pucSig i = pucSig i := by
  obtain ⟨hH, hI⟩ :=
    (signWithToken_calls_sign k g tok pucHash xHashLen pucSig xSigLen hB).mp hcall
  have hl := (signWithToken_of_le k g tok pucHash xHashLen pucSig xSigLen hH).2
  rw [if_pos hI, hlen] at hl
  have hassert : configASSERT assertHalts
      ((signWithToken k g tok pucHash xHashLen pucSig xSigLen).xSigLen == 64) = some () := by
    simp [configASSERT, hl]
  have hov : (decide (256 < xHashLen)
      || decide (64 < (signWithToken k g tok pucHash xHashLen pucSig xSigLen).xSigLen))
      = false := by
    have h1 : ¬ 256 < xHashLen := by omega
    simp [h1, hl]
  have hout : ∀ i, 72 ≤ i →
      (reformatSignature (signWithToken k g tok pucHash xHashLen pucSig xSigLen).pucSig
        (signWithToken k g tok pucHash xHashLen pucSig xSigLen).xSigLen).1 i = pucSig i := by
    intro i hi
    rw [reformatSignature_out _ _ _ hi, signWithToken_out k g tok _ _ _ _ hsig i hi]
  simp only [prvPrivateKeySigningCallback, hassert]
  split
  · exact ⟨_, rfl, hov, hH, hout⟩
  · exact ⟨_, rfl, hov, hH, hout⟩

/-- Claim C6 at a digest of 32 bytes signed by the sample token. -/
theorem signing_write_bound_witness :
    sampleConstants.CKR_ARGUMENTS_BAD ≠ 0
    ∧ Event.call (ExtFn.C_Sign sampleGlobals.xGlobalSession (readBytes (fun _ => 0xab) 0 32))
        ∈ (signWithToken sampleConstants sampleGlobals sampleSignToken (fun _ => 0xab) 32
            (fun j => j % 256) 0).trace
    ∧ (sampleSignToken.C_Sign sampleGlobals.xGlobalSession
        (readBytes (fun _ => 0xab) 0 32) 256).signature.length = 64
    ∧ (sampleSignToken.C_Sign sampleGlobals.xGlobalSession
        (readBytes (fun _ => 0xab) 0 32) 256).ulSignatureLen = 64
    ∧ ∃ o, prvPrivateKeySigningCallback sampleConstants true sampleGlobals sampleSignToken
          (fun _ => 0xab) 32 (fun j => j % 256) 0 = some o
      ∧ o.overrun = false
      ∧ 32 ≤ 256
      ∧ ∀ i, 72 ≤ i → o.pucSig i = (fun j => j % 256) i :=
  ⟨by decide, by decide, by decide, by decide,
    signing_write_bound sampleConstants true sampleGlobals sampleSignToken (fun _ => 0xab) 32
      (fun j => j % 256) 0 (by decide) (by decide) (by decide) (by decide)⟩

/-! ## The random number callback -/

/-- Claim C7.  For every session, buffer and length `prvRNG` calls `C_GenerateRandom`
of the token once, with the session, the buffer pointer and the length it was given;
it returns 0 if and only if that call returns 0, and `TLS_ERROR_RNG` for every
non-zero value of the call. -/
theorem prvRNG_status (k : Constants) (tok : RngToken)
    (pkcs_session pucRandom xRandomLength : Nat) (hR : k.TLS_ERROR_RNG ≠ 0) :
    (prvRNG k tok pkcs_session pucRandom xRandomLength).trace.filter Event.isGenerateRandom
        = [Event.call (ExtFn.C_GenerateRandom pkcs_session pucRandom xRandomLength)]
    ∧ ((prvRNG k tok pkcs_session pucRandom xRandomLength).xResult = 0
        ↔ tok.C_GenerateRandom pkcs_session pucRandom xRandomLength = 0)
    ∧ (tok.C_GenerateRandom pkcs_session pucRandom xRandomLength ≠ 0 →
        (prvRNG k tok pkcs_session pucRandom xRandomLength).xResult = k.TLS_ERROR_RNG) := by
  by_cases h : tok.C_GenerateRandom pkcs_session pucRandom xRandomLength = 0
  · simp [prvRNG, h, Event.isGenerateRandom]
  · simp [prvRNG, h, hR, Event.isGenerateRandom]

/-- Claim C7 at a token whose `C_GenerateRandom` returns 5. -/
theorem prvRNG_status_witness :
    sampleConstants.TLS_ERROR_RNG ≠ 0
    ∧ (prvRNG sampleConstants ⟨0, fun _ _ _ => 5⟩ 1 1000 16).trace.filter Event.isGenerateRandom
        = [Event.call (ExtFn.C_GenerateRandom 1 1000 16)]
    ∧ ((prvRNG sampleConstants ⟨0, fun _ _ _ => 5⟩ 1 1000 16).xResult = 0
        ↔ (⟨0, fun _ _ _ => 5⟩ : RngToken).C_GenerateRandom 1 1000 16 = 0)
    ∧ ((⟨0, fun _ _ _ => 5⟩ : RngToken).C_GenerateRandom 1 1000 16 ≠ 0 →
        (prvRNG sampleConstants ⟨0, fun _ _ _ => 5⟩ 1 1000 16).xResult
          = sampleConstants.TLS_ERROR_RNG) :=
  ⟨by decide, prvRNG_status sampleConstants ⟨0, fun _ _ _ => 5⟩ 1 1000 16 (by decide)⟩

/-! ## Provisioning -/

theorem printIf_filter_provision (c : Bool) (fmt : String) :
    (printIf c fmt).filter Event.isProvisionCertificate = [] := by
  cases c <;> simp [printIf, Event.isProvisionCertificate]

theorem printIf_count_call (c : Bool) (fmt : String) (fn : ExtFn) :
    (printIf c fmt).count (Event.call fn) = 0 := by
  cases c <;> simp [printIf]

/-- Claim C8.  In `vProvisionDevice` the last console line is "Device credential
provisioning succeeded." when the store of the device certificate returns `CKR_OK`,
whatever the store of the JITP certificate authority returns, and "Device credential
provisioning failed." otherwise; the certificate authority is stored only after a
successful store of the device certificate and only when its configured buffer has a
size other than 0, so for size 0 and after a failure only the device certificate is
attempted. -/
theorem vProvisionDevice_outcome (k : Constants) (g : Globals) (env : ProvisionEnv) :
    (vProvisionDevice k g env).trace.getLast?
        = some (Event.print (if env.deviceCertificate.1 = k.CKR_OK
            then "Device credential provisioning succeeded.\r\n"
            else "Device credential provisioning failed.\r\n"))
    ∧ (vProvisionDevice k g env).trace.filter Event.isProvisionCertificate
        = (if env.deviceCertificate.1 = k.CKR_OK ∧ k.sizeofJitrCaPem ≠ 0
           then [Event.call (ExtFn.xProvisionCertificate g.xGlobalSession
                   CertLabel.pkcs11configLABEL_DEVICE_CERTIFICATE_FOR_TLS),
                 Event.call (ExtFn.xProvisionCertificate g.xGlobalSession
                   CertLabel.pkcs11configLABEL_JITP_CERTIFICATE)]
           else [Event.call (ExtFn.xProvisionCertificate g.xGlobalSession
                   CertLabel.pkcs11configLABEL_DEVICE_CERTIFICATE_FOR_TLS)]) := by
  by_cases h1 : env.deviceCertificate.1 = k.CKR_OK <;>
    by_cases h2 : k.sizeofJitrCaPem = 0 <;>
    simp [vProvisionDevice, h1, h2, printIf_filter_provision, Event.isProvisionCertificate,
      List.getLast?_cons, List.getLast?_append]

theorem vProvisionDevice_last (k : Constants) (g : Globals) (env : ProvisionEnv) :
    ∃ pre, (vProvisionDevice k g env).trace
      = pre ++ [Event.print (if env.deviceCertificate.1 = k.CKR_OK
            then "Device credential provisioning succeeded.\r\n"
            else "Device credential provisioning failed.\r\n")] := by
  by_cases h1 : env.deviceCertificate.1 = k.CKR_OK <;>
    by_cases h2 : k.sizeofJitrCaPem = 0 <;>
    simp only [vProvisionDevice, h1, h2, if_true, if_false, ne_eq, not_true_eq_false,
      not_false_eq_true] <;>
    exact ⟨_, rfl⟩

/-- Claim C9, as stated, fails: in import mode, when opening the PKCS #11 session
returns the error 5 and the store of the device certificate succeeds, the last console
line is "Device credential provisioning succeeded.". -/
theorem import_first_failure_counterexample :
    ({ sampleEnv with xInitializePkcs11Session := (5, 0) } : ProvisionEnv).xInitializePkcs11Session.1
        ≠ ({ sampleConstants with DEMO_PART := 1 } : Constants).CKR_OK
    ∧ (vDevModeDeviceKeyProvisioning { sampleConstants with DEMO_PART := 1 } sampleGlobals
        { sampleEnv with xInitializePkcs11Session := (5, 0) }).trace
      = [Event.call ExtFn.xInitializePkcs11Session,
         Event.print "Failed to open PKCS #11 session.\r\n",
         Event.call ExtFn.C_GetFunctionList,
         Event.call (ExtFn.xProvisionCertificate 0
           CertLabel.pkcs11configLABEL_DEVICE_CERTIFICATE_FOR_TLS),
         Event.call (ExtFn.xProvisionCertificate 0 CertLabel.pkcs11configLABEL_JITP_CERTIFICATE),
         Event.print "Device credential provisioning succeeded.\r\n"] := by
  decide

theorem printIf_mem (c : Bool) (fmt : String) (e : Event) :
    e ∈ printIf c fmt ↔ c = true ∧ e = Event.print fmt := by
  cases c <;> simp [printIf]

theorem vProvisionDevice_not_mem (k : Constants) (g : Globals) (env : ProvisionEnv)
    (fmt : String) (h1 : fmt ≠ "ERROR: Failed to provision device certificate. %d \r\n")
    (h2 : fmt ≠ "Device credential provisioning succeeded.\r\n")
    (h3 : fmt ≠ "Device credential provisioning failed.\r\n") :
    Event.print fmt ∉ (vProvisionDevice k g env).trace := by
  simp only [vProvisionDevice]
  split_ifs <;> simp [printIf_mem, h1, h2, h3]

/-- Claim C9, amended.  In import mode the last console line is "Device credential
provisioning failed." exactly when the store of the device certificate returns a value
other than `CKR_OK`, and "Device credential provisioning succeeded." otherwise.  A
failure to open the PKCS #11 session or to get the function list prints its own line,
"Failed to open PKCS #11 session." or "Failed to get function list.", and decides
nothing about the last line. -/
theorem import_final_status (k : Constants) (g : Globals) (env : ProvisionEnv)
    (hD : k.DEMO_PART ≠ 0) :
    (vDevModeDeviceKeyProvisioning k g env).trace.getLast?
        = some (Event.print (if env.deviceCertificate.1 = k.CKR_OK
            then "Device credential provisioning succeeded.\r\n"
            else "Device credential provisioning failed.\r\n"))
    ∧ (Event.print "Failed to open PKCS #11 session.\r\n"
          ∈ (vDevModeDeviceKeyProvisioning k g env).trace
        ↔ env.xInitializePkcs11Session.1 ≠ k.CKR_OK)
    ∧ (Event.print "Failed to get function list.\r\n"
          ∈ (vDevModeDeviceKeyProvisioning k g env).trace
        ↔ env.C_GetFunctionList ≠ k.CKR_OK) := by
  simp only [vDevModeDeviceKeyProvisioning, hD, if_false]
  refine ⟨?_, ?_, ?_⟩
  · obtain ⟨pre, hpre⟩ := vProvisionDevice_last k
      { g with xGlobalSession := env.xInitializePkcs11Session.2,
               xResult := env.C_GetFunctionList } env
    rw [hpre, ← List.append_assoc, List.getLast?_concat]
  · have hn := vProvisionDevice_not_mem k
      { g with xGlobalSession := env.xInitializePkcs11Session.2,
               xResult := env.C_GetFunctionList } env
      "Failed to open PKCS #11 session.\r\n" (by decide) (by decide) (by decide)
    simp [printIf_mem, hn]
  · have hn := vProvisionDevice_not_mem k
      { g with xGlobalSession := env.xInitializePkcs11Session.2,
               xResult := env.C_GetFunctionList } env
      "Failed to get function list.\r\n" (by decide) (by decide) (by decide)
    simp [printIf_mem, hn]

/-- The amended claim C9 at a run in which the session cannot be opened and the device
certificate is stored. -/
theorem import_final_status_witness :
    ({ sampleConstants with DEMO_PART := 1 } : Constants).DEMO_PART ≠ 0
    ∧ (vDevModeDeviceKeyProvisioning { sampleConstants with DEMO_PART := 1 } sampleGlobals
          { sampleEnv with xInitializePkcs11Session := (5, 0) }).trace.getLast?
        = some (Event.print
            (if ({ sampleEnv with xInitializePkcs11Session := (5, 0) } : ProvisionEnv).deviceCertificate.1
                = ({ sampleConstants with DEMO_PART := 1 } : Constants).CKR_OK
            then "Device credential provisioning succeeded.\r\n"
            else "Device credential provisioning failed.\r\n"))
    ∧ (Event.print "Failed to open PKCS #11 session.\r\n"
          ∈ (vDevModeDeviceKeyProvisioning { sampleConstants with DEMO_PART := 1 } sampleGlobals
              { sampleEnv with xInitializePkcs11Session := (5, 0) }).trace
        ↔ ({ sampleEnv with xInitializePkcs11Session := (5, 0) } : ProvisionEnv).xInitializePkcs11Session.1
            ≠ ({ sampleConstants with DEMO_PART := 1 } : Constants).CKR_OK)
    ∧ (Event.print "Failed to get function list.\r\n"
          ∈ (vDevModeDeviceKeyProvisioning { sampleConstants with DEMO_PART := 1 } sampleGlobals
              { sampleEnv with xInitializePkcs11Session := (5, 0) }).trace
        ↔ ({ sampleEnv with xInitializePkcs11Session := (5, 0) } : ProvisionEnv).C_GetFunctionList
            ≠ ({ sampleConstants with DEMO_PART := 1 } : Constants).CKR_OK) :=
  ⟨by decide, import_final_status _ sampleGlobals _ (by decide)⟩

theorem destroyAndGenerateKeyPair_count_keypair (k : Constants) (g : Globals)
    (env : ProvisionEnv) :
    (destroyAndGenerateKeyPair k g env).trace.count
      (Event.call (ExtFn.xProvisionGenerateKeyPairEC g.xGlobalSession)) = 1 := by
  simp [destroyAndGenerateKeyPair, List.count_cons, printIf_count_call]

theorem destroyAndGenerateKeyPair_count_csr (k : Constants) (g : Globals)
    (env : ProvisionEnv) :
    (destroyAndGenerateKeyPair k g env).trace.count
      (Event.call ExtFn.mbedtls_x509write_csr_pem) = 0 := by
  simp [destroyAndGenerateKeyPair, List.count_cons, printIf_count_call]

theorem destroyAndGenerateKeyPair_destroy_line (k : Constants) (g : Globals)
    (env : ProvisionEnv) (h : env.xDestroyCredentials ≠ k.CKR_OK) :
    Event.print "Failed to destroy credentials before Generating Key Pair.\r\n"
      ∈ (destroyAndGenerateKeyPair k g env).trace := by
  simp [destroyAndGenerateKeyPair, printIf_mem, h]

theorem destroyAndGenerateKeyPair_completed (k : Constants) (g : Globals)
    (env : ProvisionEnv) :
    (destroyAndGenerateKeyPair k g env).completed = (env.pxGlobalFunctionList != 0) := rfl

theorem generateKeyPairAndCheck_count_keypair (k : Constants) (g : Globals)
    (env : ProvisionEnv) (s : Nat) :
    (generateKeyPairAndCheck k g env).trace.count
      (Event.call (ExtFn.xProvisionGenerateKeyPairEC s)) = 0 := by
  simp [generateKeyPairAndCheck, List.count_cons, printIf_count_call]

theorem generateKeyPairAndCheck_count_csr (k : Constants) (g : Globals) (env : ProvisionEnv) :
    (generateKeyPairAndCheck k g env).trace.count
      (Event.call ExtFn.mbedtls_x509write_csr_pem) = 0 := by
  simp [generateKeyPairAndCheck, List.count_cons, printIf_count_call]

theorem generateKeyPairAndCheck_completed (k : Constants) (g : Globals)
    (env : ProvisionEnv) :
    (generateKeyPairAndCheck k g env).completed
      = (env.mbedtls_pk_info_from_type != 0 && env.header_copy != 0) := rfl

theorem writeCsr_count_csr (env : ProvisionEnv) :
    (writeCsr env).count (Event.call ExtFn.mbedtls_x509write_csr_pem) = 1 := by
  simp [writeCsr, List.count_cons, printIf_count_call]

theorem writeCsr_count_keypair (env : ProvisionEnv) (s : Nat) :
    (writeCsr env).count (Event.call (ExtFn.xProvisionGenerateKeyPairEC s)) = 0 := by
  simp [writeCsr, List.count_cons, printIf_count_call]

/-- Claim C10, as stated, fails: in generate mode, when `xDestroyCredentials` returns
the error 5 and every other call succeeds, the key pair generation and the write of the
certificate signing request are both attempted. -/
theorem destroy_failure_counterexample :
    ({ sampleEnv with xDestroyCredentials := 5 } : ProvisionEnv).xDestroyCredentials
        ≠ sampleConstants.CKR_OK
    ∧ sampleConstants.DEMO_PART = 0
    ∧ Event.call (ExtFn.xProvisionGenerateKeyPairEC 1)
        ∈ (vDevModeDeviceKeyProvisioning sampleConstants sampleGlobals
            { sampleEnv with xDestroyCredentials := 5 }).trace
    ∧ Event.call ExtFn.mbedtls_x509write_csr_pem
        ∈ (vDevModeDeviceKeyProvisioning sampleConstants sampleGlobals
            { sampleEnv with xDestroyCredentials := 5 }).trace := by
  decide

/-- Claim C10, amended.  In generate mode a failure of `xDestroyCredentials` is not
fatal: the line "Failed to destroy credentials before Generating Key Pair." is printed
and provisioning goes on.  The key pair generation is still attempted once.  The write
of the certificate signing request is attempted once when the run reaches it, that is
when the function list pointer, the key descriptor and its copy are not `NULL`, and
not at all otherwise; the value `xDestroyCredentials` returns plays no part in it. -/
theorem destroy_failure_continues (k : Constants) (g : Globals) (env : ProvisionEnv)
    (hD : k.DEMO_PART = 0) (hF : env.xDestroyCredentials ≠ k.CKR_OK) :
    Event.print "Failed to destroy credentials before Generating Key Pair.\r\n"
        ∈ (vDevModeDeviceKeyProvisioning k g env).trace
    ∧ (vDevModeDeviceKeyProvisioning k g env).trace.count
        (Event.call (ExtFn.xProvisionGenerateKeyPairEC env.xInitializePkcs11Session.2)) = 1
    ∧ (vDevModeDeviceKeyProvisioning k g env).trace.count
        (Event.call ExtFn.mbedtls_x509write_csr_pem)
      = (if (env.pxGlobalFunctionList != 0 && env.mbedtls_pk_info_from_type != 0
            && env.header_copy != 0) = true then 1 else 0) := by
  have hline := destroyAndGenerateKeyPair_destroy_line k
    { g with xGlobalSession := env.xInitializePkcs11Session.2,
             xResult := env.C_GetFunctionList } env hF
  have hkp := destroyAndGenerateKeyPair_count_keypair k
    { g with xGlobalSession := env.xInitializePkcs11Session.2,
             xResult := env.C_GetFunctionList } env
  have hcsr := destroyAndGenerateKeyPair_count_csr k
    { g with xGlobalSession := env.xInitializePkcs11Session.2,
             xResult := env.C_GetFunctionList } env
  simp only [vDevModeDeviceKeyProvisioning, hD, if_true, destroyAndGenerateKeyPair_completed,
    generateKeyPairAndCheck_completed]
  refine ⟨?_, ?_, ?_⟩
  · split_ifs <;> simp [hline]
  · split_ifs <;>
      simp [List.count_cons, List.count_append, printIf_count_call, hkp,
        writeCsr_count_keypair, generateKeyPairAndCheck_count_keypair]
  · cases h1 : (env.pxGlobalFunctionList != 0) <;>
      cases h2 : (env.mbedtls_pk_info_from_type != 0) <;>
      cases h3 : (env.header_copy != 0) <;>
      simp [List.count_cons, List.count_append, printIf_count_call, hcsr,
        writeCsr_count_csr, generateKeyPairAndCheck_count_csr]

/-- The amended claim C10 at a run in which `xDestroyCredentials` returns the error
5 and every other call succeeds. -/
theorem destroy_failure_continues_witness :
    sampleConstants.DEMO_PART = 0
    ∧ ({ sampleEnv with xDestroyCredentials := 5 } : ProvisionEnv).xDestroyCredentials
        ≠ sampleConstants.CKR_OK
    ∧ Event.print "Failed to destroy credentials before Generating Key Pair.\r\n"
        ∈ (vDevModeDeviceKeyProvisioning sampleConstants sampleGlobals
            { sampleEnv with xDestroyCredentials := 5 }).trace
    ∧ (vDevModeDeviceKeyProvisioning sampleConstants sampleGlobals
          { sampleEnv with xDestroyCredentials := 5 }).trace.count
        (Event.call (ExtFn.xProvisionGenerateKeyPairEC
          ({ sampleEnv with xDestroyCredentials := 5 } : ProvisionEnv).xInitializePkcs11Session.2))
        = 1
    ∧ (vDevModeDeviceKeyProvisioning sampleConstants sampleGlobals
          { sampleEnv with xDestroyCredentials := 5 }).trace.count
        (Event.call ExtFn.mbedtls_x509write_csr_pem)
      = (if (({ sampleEnv with xDestroyCredentials := 5 } : ProvisionEnv).pxGlobalFunctionList != 0
            && ({ sampleEnv with xDestroyCredentials := 5 } : ProvisionEnv).mbedtls_pk_info_from_type
              != 0
            && ({ sampleEnv with xDestroyCredentials := 5 } : ProvisionEnv).header_copy != 0)
            = true then 1 else 0) :=
  ⟨by decide, by decide,
    destroy_failure_continues sampleConstants sampleGlobals
      { sampleEnv with xDestroyCredentials := 5 } (by decide) (by decide)⟩

/-! ## The copy of the digest -/

theorem signWithToken_xToBeSigned (k : Constants) (g : Globals) (tok : SignToken)
    (pucHash : Mem) (xHashLen : Nat) (pucSig : Mem) (xSigLen : Nat) (i : Nat) :
    (signWithToken k g tok pucHash xHashLen pucSig xSigLen).xToBeSigned i
      = if i < xHashLen then pucHash i else 0 := by
  have h : (signWithToken k g tok pucHash xHashLen pucSig xSigLen).xToBeSigned
      = memcpy (fun _ => 0) 0 pucHash 0 xHashLen := by
    simp only [signWithToken]
    split_ifs <;> rfl
  rw [h]
  simp [memcpy]

/-- Claim C11 at a digest of 257 bytes `0xab`: the call returns `TLS_ERROR_SIGN`
without calling the token, and the copy has stored the digest byte at index 256 of
`xToBeSigned`, one past the end of the array of 256 bytes; index 257 is untouched. -/
theorem oversize_digest_copied :
    (prvPrivateKeySigningCallback sampleConstants true sampleGlobals sampleSignToken
        (fun _ => 0xab) 257 (fun _ => 0) 64).map
      (fun o => (o.lFinalResult, o.trace.filter Event.isTokenCall,
        o.xToBeSigned 255, o.xToBeSigned 256, o.xToBeSigned 257))
      = some (sampleConstants.TLS_ERROR_SIGN, [], 0xab, 0xab, 0) := by
  decide

/-! ## Attribute checks in generate mode -/

end KeyProvisioning
